import Mathlib

/-!
Verification of the eink_llss device-instance session and frame-delivery
protocol.  The definitions below are a shallow embedding of the Python
source (src/app): database rows become structures, the database becomes a

structure of lists of rows, each HTTP handler becomes a pure function from
the database (plus the nondeterministic inputs the handler draws: fresh
ids, fresh secrets, fresh JTIs, the current time, and the outcome of
outbound HLSS backend calls) to a result and an updated database.
-/

namespace EinkLLSS

/-- Device authorization state, `db_models.DeviceAuthStatus`
(string column values "pending" / "authorized" / "rejected" / "revoked"). -/
inductive AuthStatus where
  | pending
  | authorized
  | rejected
  | revoked
deriving DecidableEq, Repr

/-- Python truthiness of an `Optional[str]`: `None` and `""` are falsy. -/
def optStrTruthy : Option String → Bool
  | none => false
  | some s => s != ""

/-- Python `str()` applied to an `Optional[str]` value: `str(None) = "None"`. -/
def pyStr : Option String → String
  | none => "None"
  | some s => s

/-- A row of the `devices` table (`db_models.Device` plus the JWT-auth
columns added by migration 002).  Timestamps are abstract `Nat` ticks. -/
structure Device where
  device_id : String
  hardware_id : String
  device_secret : String
  firmware_version : String
  auth_status : AuthStatus
  current_refresh_jti : Option String := none
  current_frame_id : Option String := none
  active_instance_id : Option String := none
  last_seen_at : Option Nat := none
deriving DecidableEq, Repr

/-- A row of the `frames` table (`db_models.Frame`); `data` is the raw
payload bytes. -/
structure Frame where
  frame_id : String
  instance_id : Option String
  data : List Nat
  hash : String
  created_at : Nat
deriving DecidableEq, Repr

/-- A row of the `instances` table (`db_models.Instance`), restricted to
the fields the session core reads. -/
structure Instance where
  instance_id : String
  name : String
  hlss_type_id : Option String := none
  access_token : String := ""
deriving DecidableEq, Repr

/-- A row of the `hlss_types` table (`db_models.HLSSType`), restricted to
the fields the session core reads. -/
structure HLSSType where
  type_id : String
  is_active : Bool
deriving DecidableEq, Repr

/-- A row of the `device_instance_map` table (`db_models.DeviceInstanceMap`). -/
structure Assignment where
  id : Nat
  device_id : String
  instance_id : String
deriving DecidableEq, Repr

/-- A row of the `input_events` audit table (`db_models.InputEvent`). -/
structure InputEventRec where
  device_id : String
  instance_id : Option String
  button : String
  event_type : String
  event_timestamp : Nat
deriving DecidableEq, Repr

/-- The database state: one list per table. -/
structure Db where
  devices : List Device
  instances : List Instance
  hlss_types : List HLSSType
  frames : List Frame
  assignments : List Assignment
  input_events : List InputEventRec
deriving Repr

/-- Replace the first element satisfying `p` (the SQLAlchemy pattern of
mutating exactly the row returned by `query(...).first()`). -/
def updateFirst (p : α → Bool) (f : α → α) : List α → List α
  | [] => []
  | x :: xs => if p x then f x :: xs else x :: updateFirst p f xs

/-- Insert an assignment into a list sorted by ascending `id`. -/
def insertById (a : Assignment) : List Assignment → List Assignment
  | [] => [a]
  | b :: bs => if a.id ≤ b.id then a :: b :: bs else b :: insertById a bs

/-- Sort assignments by ascending `id` (the `order_by(DeviceInstanceMap.id)`
of `_handle_screen_switch`). -/
def sortById (l : List Assignment) : List Assignment := l.foldr insertById []

/-- `query(Frame).filter(instance_id).order_by(created_at.desc()).first()`:
the frame for the instance with maximal `created_at` (first stored wins ties). -/
def latestFrame (db : Db) (iid : String) : Option Frame :=
  (db.frames.filter (fun f => f.instance_id == some iid)).foldl
    (fun acc f =>
      match acc with
      | none => some f
      | some g => if g.created_at < f.created_at then some f else acc) none

/-! ## Token Service (`app/auth.py`) -/

/-- The claim set jose's `jwt.decode` hands back on success
(`payload.get` defaults are applied in `decode_token` below). -/
structure JwtPayload where
  sub : Option String := none
  type : Option String := none
  exp : Option Nat := none
  iat : Option Nat := none
  jti : Option String := none
deriving DecidableEq, Repr

/-- Outcome of `jose.jwt.decode(token, SECRET_KEY)`.  A malformed token, a
wrong signature and an already-expired token all raise `JWTError` inside the
library, collapsed here into `err`; `ok` carries the decoded claim set. -/
inductive JwtDecode where
  | err
  | ok (p : JwtPayload)
deriving DecidableEq, Repr

/-- Decoded token data (`auth.TokenData`). -/
structure TokenData where
  subject_id : String
  token_type : String
  expires_at : Nat
  issued_at : Nat
  jti : Option String := none
deriving DecidableEq, Repr

/-- `auth.decode_token`: returns `None` on any `JWTError`, otherwise the
decoded claims with `payload.get` defaults. -/
def decode_token : JwtDecode → Option TokenData
  | .err => none
  | .ok p =>
      some { subject_id := p.sub.getD ""
             token_type := p.type.getD ""
             expires_at := p.exp.getD 0
             issued_at := p.iat.getD 0
             jti := p.jti }

/-- `auth.verify_token`: decode, then require the expected type and a
future expiry; every failure path returns the same `none`. -/
def verify_token (d : JwtDecode) (expected_type : String) (now : Nat) :
    Option TokenData :=
  match decode_token d with
  | none => none
  | some token_data =>
      if token_data.token_type != expected_type then none
      else if token_data.expires_at < now then none
      else some token_data

/-- `auth.get_token_expiry_seconds "device_refresh"` = 30 days. -/
def refreshExpirySeconds : Nat := 30 * 24 * 60 * 60

/-- `auth.get_token_expiry_seconds "device_access"` = 1 day. -/
def accessExpirySeconds : Nat := 24 * 60 * 60

/-! ## Device Registry (`app/routers/device_auth.py`, `app/dependencies.py`,
`app/routers/admin.py`) -/

/-- Result of `POST /auth/devices/token` (`authenticate_device`). -/
inductive AuthResult where
  /-- Unknown hardware id: auto-registered with `pending` status. -/
  | pendingRegistered (device_id : String)
  /-- 401: `device_secret` mismatch. -/
  | unauthorized
  /-- Existing device still `pending`: empty token response. -/
  | pendingExisting (device_id : String)
  /-- 403: device `rejected` or `revoked`. -/
  | forbidden (s : AuthStatus)
  /-- Refresh token issued; `jti` stored as `current_refresh_jti`. -/
  | success (device_id : String) (jti : String) (expires_in : Nat)
deriving DecidableEq, Repr

/-- The firmware-version update of `authenticate_device` (lines 198-200):
write the reported version if it changed. -/
def withFirmware (d : Device) (fw : String) : Device :=
  if d.firmware_version ≠ fw then { d with firmware_version := fw } else d

/-- `device_auth.authenticate_device`.  `fresh_device_id`, `fresh_secret`
and `fresh_jti` stand for the `uuid4` / `token_urlsafe` draws. -/
def authenticate_device (db : Db) (hardware_id device_secret firmware_version : String)
    (fresh_device_id fresh_secret fresh_jti : String) : AuthResult × Db :=
  match db.devices.find? (fun d => d.hardware_id == hardware_id) with
  | none =>
      let newDev : Device :=
        { device_id := fresh_device_id, hardware_id, device_secret := fresh_secret
          firmware_version, auth_status := .pending }
      (.pendingRegistered fresh_device_id,
       { db with devices := db.devices ++ [newDev] })
  | some device =>
      if device.device_secret ≠ device_secret then (.unauthorized, db)
      else
        let device1 := withFirmware device firmware_version
        let write (d : Device) : Db :=
          { db with devices :=
              updateFirst (fun x => x.hardware_id == hardware_id) (fun _ => d) db.devices }
        match device1.auth_status with
        | .pending => (.pendingExisting device1.device_id, write device1)
        | .rejected => (.forbidden .rejected, write device1)
        | .revoked => (.forbidden .revoked, write device1)
        | .authorized =>
            let device2 := { device1 with current_refresh_jti := some fresh_jti }
            (.success device2.device_id fresh_jti refreshExpirySeconds, write device2)

/-- Result of `POST /auth/devices/refresh`
(`get_device_from_refresh_token` + `refresh_access_token`). -/
inductive RefreshResult where
  /-- 401: token subject not found. -/
  | deviceNotFound
  /-- 403: device not in `authorized` status. -/
  | forbidden
  /-- 401 "Refresh token has been revoked": JTI mismatch. -/
  | revoked
  /-- New access token minted for the device; nothing is written. -/
  | success (device_id : String)
deriving DecidableEq, Repr

/-- `dependencies.get_device_from_refresh_token` followed by
`device_auth.refresh_access_token`, applied to an already-verified refresh
token with subject `subject_id` and (optional) JTI claim `tok_jti`.
The JTI check is `if token_data.jti and str(device.current_refresh_jti)
!= token_data.jti` — it only fires when the token carries a truthy JTI,
and compares against the Python `str()` of the stored column.
The handler performs no database write. -/
def refresh_access (db : Db) (subject_id : String) (tok_jti : Option String) :
    RefreshResult :=
  match db.devices.find? (fun d => d.device_id == subject_id) with
  | none => .deviceNotFound
  | some device =>
      if device.auth_status ≠ .authorized then .forbidden
      else
        match tok_jti with
        | some j =>
            if j ≠ "" ∧ pyStr device.current_refresh_jti ≠ j then .revoked
            else .success device.device_id
        | none => .success device.device_id

/-- `admin.revoke_device`: 404 (`none`) if the device is unknown, else set
`auth_status` to `revoked` and clear `current_refresh_jti`. -/
def revoke_device (db : Db) (device_id : String) : Option Db :=
  match db.devices.find? (fun d => d.device_id == device_id) with
  | none => none
  | some device =>
      some { db with devices :=
        (updateFirst (fun d => d.device_id == device_id)
          (fun _ => { device with auth_status := .revoked, current_refresh_jti := none })
          db.devices) }

/-! ## Backend Gateway outcomes (`app/hlss_service.py`) -/

/-- `models.HLSSFrameMetadata`, restricted to the fields the core reads. -/
structure HLSSFrameMetadata where
  instance_id : String
  has_frame : Bool
  frame_id : Option String := none
  frame_hash : Option String := none
deriving DecidableEq, Repr

/-- `models.HLSSFrameSendResponse`, restricted to the fields the core reads. -/
structure HLSSFrameSendResponse where
  status : String
  frame_id : Option String := none
deriving DecidableEq, Repr

/-- The outcomes of the outbound HLSS calls a request triggers, as drawn
from the environment: `HLSSService.get_frame_metadata` and
`HLSSService.request_frame_send` each map HTTP outcomes to success with a
payload or failure with an error message (`Except`). -/
structure Env where
  frame_metadata : String → Except String HLSSFrameMetadata
  frame_send : String → Except String HLSSFrameSendResponse

/-! ## Session Orchestrator (`app/routers/devices.py`, `app/routers/instances.py`) -/

/-- `devices._check_hlss_for_new_frame`, as a function of the polling
device's `current_frame_id`.  Returns the frame id the code both writes to
`device.current_frame_id` and returns (`some`), or `None`.  The
`request_frame_send` fire-and-forget in the frame-missing branch returns
`None` whether or not it succeeds. -/
def check_hlss_for_new_frame (env : Env) (db : Db) (current_frame_id : Option String)
    (instance_id : String) : Option String :=
  match db.instances.find? (fun i => i.instance_id == instance_id) with
  | none => none
  | some inst =>
      match inst.hlss_type_id with
      | none => none
      | some tid =>
          if tid = "" then none
          else
            match db.hlss_types.find? (fun t => t.type_id == tid) with
            | none => none
            | some hlss_type =>
                if ¬ hlss_type.is_active then none
                else
                  match env.frame_metadata instance_id with
                  | .error _ => none
                  | .ok frame_metadata =>
                      match frame_metadata.frame_id with
                      | none => none
                      | some hlss_frame_id =>
                          if hlss_frame_id = "" then none
                          else
                            match db.frames.find? (fun f =>
                                f.instance_id == some instance_id &&
                                f.frame_id == hlss_frame_id) with
                            | some existing_frame =>
                                if current_frame_id ≠ some existing_frame.frame_id then
                                  some existing_frame.frame_id
                                else none
                            | none => none

/-- Apply the `device.current_frame_id` write `_check_hlss_for_new_frame`
performs when it returns a frame id. -/
def applyCheck (d : Device) : Option String → Device
  | some f => { d with current_frame_id := some f }
  | none => d

/-- `models.DeviceAction`. -/
inductive DeviceAction where
  | NOOP
  | FETCH_FRAME
  | SLEEP
deriving DecidableEq, Repr

/-- `models.DeviceStateResponse`. -/
structure DeviceStateResponse where
  action : DeviceAction
  frame_id : Option String := none
  active_instance_id : Option String := none
  poll_after_ms : Nat := 5000
deriving DecidableEq, Repr

/-- `devices.get_device_state` (`GET /devices/{device_id}/state`), the
device poll.  `auth_device_id` is the subject `get_current_device`
extracted from the bearer token; the handler binds it to `_`. -/
def get_device_state (env : Env) (db : Db) (device_id : String)
    (last_frame_id : Option String) (_auth_device_id : String) (now : Nat) :
    DeviceStateResponse × Db :=
  match db.devices.find? (fun d => d.device_id == device_id) with
  | none =>
      ({ action := .NOOP, frame_id := none, active_instance_id := none,
         poll_after_ms := 5000 }, db)
  | some device0 =>
      let device := { device0 with last_seen_at := some now }
      let writeD (d : Device) : Db :=
        { db with devices :=
            (updateFirst (fun x => x.device_id == device_id) (fun _ => d) db.devices) }
      if optStrTruthy device.current_frame_id &&
          device.current_frame_id != last_frame_id then
        ({ action := .FETCH_FRAME, frame_id := device.current_frame_id,
           active_instance_id := device.active_instance_id, poll_after_ms := 5000 },
         writeD device)
      else if optStrTruthy device.active_instance_id then
        let iid := device.active_instance_id.getD ""
        let r := check_hlss_for_new_frame env db device.current_frame_id iid
        let device1 := applyCheck device r
        if optStrTruthy r && r != last_frame_id then
          ({ action := .FETCH_FRAME, frame_id := r,
             active_instance_id := device.active_instance_id, poll_after_ms := 5000 },
           writeD device1)
        else
          ({ action := .NOOP, frame_id := none,
             active_instance_id := device.active_instance_id, poll_after_ms := 5000 },
           writeD device1)
      else
        ({ action := .NOOP, frame_id := none,
           active_instance_id := device.active_instance_id, poll_after_ms := 5000 },
         writeD device)

/-- `FrameCreateResponse` of `instances.submit_frame`. -/
structure FrameCreateResponse where
  frame_id : String
  hash : String
  created_at : Nat
deriving DecidableEq, Repr

/-- `instances.submit_frame` (`POST /instances/{instance_id}/frames`).
`fresh_frame_id` stands for the `uuid4` draw and `frame_hash` for
`hashlib.sha256(content).hexdigest()[:16]`.  Stores the new frame row and
sets `current_frame_id` on every device whose `active_instance_id` equals
this instance. -/
def submit_frame (db : Db) (instance_id : String) (content : List Nat)
    (fresh_frame_id frame_hash : String) (now : Nat) : FrameCreateResponse × Db :=
  let frame : Frame :=
    { frame_id := fresh_frame_id, instance_id := some instance_id,
      data := content, hash := frame_hash, created_at := now }
  let db' : Db :=
    { db with
      frames := db.frames ++ [frame]
      devices := db.devices.map (fun d =>
        if d.active_instance_id == some instance_id then
          { d with current_frame_id := some fresh_frame_id }
        else d) }
  ({ frame_id := fresh_frame_id, hash := frame_hash, created_at := now }, db')

/-- `models.ButtonType` (string enum). -/
inductive ButtonType where
  | BTN_1 | BTN_2 | BTN_3 | BTN_4 | BTN_5 | BTN_6 | BTN_7 | BTN_8
  | ENTER | ESC | HL_LEFT | HL_RIGHT
deriving DecidableEq, Repr

/-- The string value of a button (`ButtonType(str, Enum)`). -/
def ButtonType.value : ButtonType → String
  | .BTN_1 => "BTN_1" | .BTN_2 => "BTN_2" | .BTN_3 => "BTN_3" | .BTN_4 => "BTN_4"
  | .BTN_5 => "BTN_5" | .BTN_6 => "BTN_6" | .BTN_7 => "BTN_7" | .BTN_8 => "BTN_8"
  | .ENTER => "ENTER" | .ESC => "ESC" | .HL_LEFT => "HL_LEFT" | .HL_RIGHT => "HL_RIGHT"

/-- `models.EventType` (string enum). -/
inductive EventType where
  | PRESS | LONG_PRESS | RELEASE
deriving DecidableEq, Repr

/-- The string value of an event type. -/
def EventType.value : EventType → String
  | .PRESS => "PRESS" | .LONG_PRESS => "LONG_PRESS" | .RELEASE => "RELEASE"

/-- `models.InputEvent`, the request body of `POST /devices/{id}/inputs`. -/
structure InputEventSchema where
  button : ButtonType
  event_type : EventType
  timestamp : Nat
deriving DecidableEq, Repr

/-- The ordered assigned-instance list of `_handle_screen_switch`:
`query(DeviceInstanceMap).filter(device_id).order_by(id)`. -/
def assignedIds (db : Db) (device_id : String) : List String :=
  (sortById (db.assignments.filter (fun m => m.device_id == device_id))).map
    (fun m => m.instance_id)

/-- `devices._handle_screen_switch`: rotate `active_instance_id` through
the assigned list (HL_LEFT −1 / HL_RIGHT +1, Python `%`), select the first
assigned instance if there is no active instance or it is not in the list
(returning early in those two cases), and in the rotation case probe the
backend once and fall back to the most recent cached frame.  Returns the
device row as left by the handler; only device fields are written. -/
def handle_screen_switch (env : Env) (db : Db) (device : Device)
    (button : ButtonType) : Device :=
  match assignedIds db device.device_id with
  | [] => device
  | id0 :: rest =>
      let ids := id0 :: rest
      if ¬ optStrTruthy device.active_instance_id then
        { device with active_instance_id := some id0 }
      else
        let active := device.active_instance_id.getD ""
        match ids.findIdx? (fun x => x == active) with
        | none => { device with active_instance_id := some id0 }
        | some current_index =>
            let step : Int := match button with | .HL_LEFT => -1 | _ => 1
            let new_index := (((current_index : Int) + step).emod ids.length).toNat
            let new_instance_id := ids.getD new_index ""
            let device := { device with active_instance_id := some new_instance_id }
            match check_hlss_for_new_frame env db device.current_frame_id
                new_instance_id with
            | some new_frame_id =>
                { device with current_frame_id := some new_frame_id }
            | none =>
                match latestFrame db new_instance_id with
                | some latest_frame =>
                    { device with current_frame_id := some latest_frame.frame_id }
                | none => device

/-- `devices.submit_input` (`POST /devices/{device_id}/inputs`): log the
event, then either handle an HL_LEFT/HL_RIGHT screen switch or forward the
event to the active instance's backend (fire-and-forget, no state
change).  `_auth_device_id` is the bearer token's subject, bound to `_`
by the handler. -/
def submit_input (env : Env) (db : Db) (device_id : String)
    (event : InputEventSchema) (_auth_device_id : String) : String × Db :=
  match db.devices.find? (fun d => d.device_id == device_id) with
  | none => ("Device not found", db)
  | some device =>
      let ie : InputEventRec :=
        { device_id, instance_id := device.active_instance_id,
          button := event.button.value, event_type := event.event_type.value,
          event_timestamp := event.timestamp }
      let db1 : Db := { db with input_events := db.input_events ++ [ie] }
      if event.button = .HL_LEFT ∨ event.button = .HL_RIGHT then
        let device' := handle_screen_switch env db1 device event.button
        ("Screen switch processed",
         { db1 with devices :=
             (updateFirst (fun x => x.device_id == device_id) (fun _ => device')
               db1.devices) })
      else
        ("Input processed", db1)

/-- `devices.get_frame` (`GET /devices/{device_id}/frames/{frame_id}`):
the raw bytes with `image/png`, or an empty `application/octet-stream`
body when the frame is absent or empty.  `_auth_device_id` is the bearer
token's subject, bound to `_` by the handler. -/
def get_frame (db : Db) (_device_id frame_id : String)
    (_auth_device_id : String) : List Nat × String :=
  match db.frames.find? (fun f => f.frame_id == frame_id) with
  | some frame =>
      if frame.data ≠ [] then (frame.data, "image/png")
      else ([], "application/octet-stream")
  | none => ([], "application/octet-stream")

/-! ## Frame sync diagnostics (`app/routers/admin.py`) -/

/-- `models.FrameSyncResult`. -/
structure FrameSyncResult where
  instance_id : String
  instance_name : String
  hlss_has_frame : Bool
  hlss_frame_hash : Option String := none
  llss_has_frame : Bool
  llss_frame_hash : Option String := none
  in_sync : Bool
  action_taken : Option String := none
  error : Option String := none
deriving DecidableEq, Repr

/-- The `action_taken` string `sync_instance_frame` builds from a
successful `request_frame_send` response. -/
def syncActionString (resp : HLSSFrameSendResponse) : String :=
  "Requested frame from HLSS: status=" ++ resp.status ++
    (match resp.frame_id with
     | some f => if f ≠ "" then ", frame_id=" ++ f else ""
     | none => "")

/-- `admin.get_instance_frame_status` (`GET .../frame-status`): `none`
models the 404/400 `HTTPException` paths (instance unknown, no HLSS type
configured, HLSS type row missing). -/
def get_instance_frame_status (env : Env) (db : Db) (instance_id : String) :
    Option FrameSyncResult :=
  match db.instances.find? (fun i => i.instance_id == instance_id) with
  | none => none
  | some inst =>
      match inst.hlss_type_id with
      | none => none
      | some tid =>
          if tid = "" then none
          else
            match db.hlss_types.find? (fun t => t.type_id == tid) with
            | none => none
            | some _ =>
                let llss_frame := latestFrame db instance_id
                let llss_has_frame := llss_frame.isSome
                let llss_frame_hash := llss_frame.map (fun f => f.hash)
                match env.frame_metadata instance_id with
                | .error e =>
                    some { instance_id, instance_name := inst.name,
                           hlss_has_frame := false, llss_has_frame,
                           llss_frame_hash, in_sync := false,
                           error := some ("Failed to get HLSS frame status: " ++ e) }
                | .ok hlss_metadata =>
                    let hlss_has_frame := hlss_metadata.has_frame
                    let hlss_frame_hash := hlss_metadata.frame_hash
                    let in_sync :=
                      (!hlss_has_frame && !llss_has_frame) ||
                      (hlss_has_frame && llss_has_frame &&
                        hlss_frame_hash == llss_frame_hash)
                    some { instance_id, instance_name := inst.name,
                           hlss_has_frame, hlss_frame_hash,
                           llss_has_frame, llss_frame_hash, in_sync }

/-- `admin.sync_instance_frame` (`POST .../sync-frame`): same lookups and
comparison as `get_instance_frame_status`; when out of sync, issues
`request_frame_send` and reports the backend's response status in
`action_taken` (or the failure in `error`). -/
def sync_instance_frame (env : Env) (db : Db) (instance_id : String) :
    Option FrameSyncResult :=
  match db.instances.find? (fun i => i.instance_id == instance_id) with
  | none => none
  | some inst =>
      match inst.hlss_type_id with
      | none => none
      | some tid =>
          if tid = "" then none
          else
            match db.hlss_types.find? (fun t => t.type_id == tid) with
            | none => none
            | some _ =>
                let llss_frame := latestFrame db instance_id
                let llss_has_frame := llss_frame.isSome
                let llss_frame_hash := llss_frame.map (fun f => f.hash)
                match env.frame_metadata instance_id with
                | .error e =>
                    some { instance_id, instance_name := inst.name,
                           hlss_has_frame := false, llss_has_frame,
                           llss_frame_hash, in_sync := false,
                           error := some ("Failed to get HLSS frame status: " ++ e) }
                | .ok hlss_metadata =>
                    let hlss_has_frame := hlss_metadata.has_frame
                    let hlss_frame_hash := hlss_metadata.frame_hash
                    if !hlss_has_frame && !llss_has_frame then
                      some { instance_id, instance_name := inst.name,
                             hlss_has_frame := false, llss_has_frame := false,
                             in_sync := true,
                             action_taken := some "No frames exist on either side" }
                    else if hlss_has_frame && llss_has_frame &&
                        hlss_frame_hash == llss_frame_hash then
                      some { instance_id, instance_name := inst.name,
                             hlss_has_frame := true, hlss_frame_hash,
                             llss_has_frame := true, llss_frame_hash,
                             in_sync := true,
                             action_taken := some "Frames already in sync" }
                    else
                      match env.frame_send instance_id with
                      | .error e =>
                          some { instance_id, instance_name := inst.name,
                                 hlss_has_frame, hlss_frame_hash,
                                 llss_has_frame, llss_frame_hash,
                                 in_sync := false,
                                 error := some
                                   ("Failed to request frame from HLSS: " ++ e) }
                      | .ok send_response =>
                          some { instance_id, instance_name := inst.name,
                                 hlss_has_frame, hlss_frame_hash,
                                 llss_has_frame, llss_frame_hash,
                                 in_sync := false,
                                 action_taken := some (syncActionString send_response) }

/-! ## Concrete fixtures used by witnesses and counterexamples -/

/-- A device row used by concrete counterexamples: authorized, with a
stored refresh JTI. -/
def c2Device : Device :=
  { device_id := "d1", hardware_id := "hw1", device_secret := "sec1",
    firmware_version := "1.0", auth_status := .authorized,
    current_refresh_jti := some "jtiA" }

/-- A one-device database for concrete counterexamples. -/
def c2Db : Db :=
  { devices := [c2Device], instances := [], hlss_types := [], frames := [],
    assignments := [], input_events := [] }

/-- An environment in which every outbound HLSS call fails (timeout /
connection error). -/
def stubEnv : Env :=
  { frame_metadata := fun _ => .error "connection error",
    frame_send := fun _ => .error "connection error" }

/-- Device with assigned instances A, B, C and active C (C5 scenario). -/
def c5Device : Device :=
  { device_id := "d1", hardware_id := "hw1", device_secret := "s",
    firmware_version := "1", auth_status := .authorized,
    active_instance_id := some "C" }

/-- Database for the C5 wraparound scenario. -/
def c5Db : Db :=
  { devices := [c5Device], instances := [], hlss_types := [], frames := [],
    assignments := [{ id := 1, device_id := "d1", instance_id := "A" },
                    { id := 2, device_id := "d1", instance_id := "B" },
                    { id := 3, device_id := "d1", instance_id := "C" }],
    input_events := [] }

/-- Device with no active instance but one assigned instance (C4 scenario). -/
def c4Device : Device :=
  { device_id := "d4", hardware_id := "hw4", device_secret := "s",
    firmware_version := "1", auth_status := .authorized,
    active_instance_id := none, current_frame_id := none }

/-- A cached frame for instance A. -/
def c4Frame : Frame :=
  { frame_id := "fA", instance_id := some "A", data := [1], hash := "hA",
    created_at := 10 }

/-- Database for the C4 counterexample. -/
def c4Db : Db :=
  { devices := [c4Device], instances := [], hlss_types := [], frames := [c4Frame],
    assignments := [{ id := 1, device_id := "d4", instance_id := "A" }],
    input_events := [] }

/-- Database for the C4-amended witness: active `A`, assigned `[A, B]`,
one cached frame for `B`. -/
def c4bDevice : Device :=
  { device_id := "d5", hardware_id := "hw5", device_secret := "s",
    firmware_version := "1", auth_status := .authorized,
    active_instance_id := some "A", current_frame_id := none }

/-- A cached frame for instance B. -/
def c4bFrame : Frame :=
  { frame_id := "fB", instance_id := some "B", data := [2], hash := "hB",
    created_at := 5 }

/-- Database for the C4-amended witness. -/
def c4bDb : Db :=
  { devices := [c4bDevice], instances := [], hlss_types := [], frames := [c4bFrame],
    assignments := [{ id := 1, device_id := "d5", instance_id := "A" },
                    { id := 2, device_id := "d5", instance_id := "B" }],
    input_events := [] }

/-- Authorized device for the C1 witness. -/
def c1Device : Device :=
  { device_id := "dev1", hardware_id := "hwX", device_secret := "topsecret",
    firmware_version := "1.0", auth_status := .authorized }

/-- Database for the C1 witness. -/
def c1Db : Db :=
  { devices := [c1Device], instances := [], hlss_types := [], frames := [],
    assignments := [], input_events := [] }

/-- Device active on instance I (C3 witness). -/
def c3DevA : Device :=
  { device_id := "dA", hardware_id := "hA", device_secret := "s",
    firmware_version := "1", auth_status := .authorized,
    active_instance_id := some "I" }

/-- Device active on another instance J (C3 witness). -/
def c3DevB : Device :=
  { device_id := "dB", hardware_id := "hB", device_secret := "s",
    firmware_version := "1", auth_status := .authorized,
    active_instance_id := some "J" }

/-- Database for the C3 witness. -/
def c3Db : Db :=
  { devices := [c3DevA, c3DevB], instances := [], hlss_types := [], frames := [],
    assignments := [], input_events := [] }

/-- The device-row write `get_device_state` commits. -/
def pollWrite (db : Db) (did : String) (d : Device) : Db :=
  { db with devices :=
      (updateFirst (fun x => x.device_id == did) (fun _ => d) db.devices) }

/-- Device whose `current_frame_id` differs from the poll's
`last_known_frame_id` (C8 counterexample). -/
def c8Device : Device :=
  { device_id := "d8", hardware_id := "h8", device_secret := "s",
    firmware_version := "1", auth_status := .authorized,
    current_frame_id := some "f1", active_instance_id := none }

/-- Database for the C8 counterexample. -/
def c8Db : Db :=
  { devices := [c8Device], instances := [], hlss_types := [], frames := [],
    assignments := [], input_events := [] }

/-- Instance fixture for the C9 witness. -/
def c9Inst : Instance :=
  { instance_id := "I9", name := "nine", hlss_type_id := some "t9" }

/-- HLSS type fixture for the C9 witness. -/
def c9Type : HLSSType := { type_id := "t9", is_active := true }

/-- Locally cached frame with hash "abc123" (C9 witness). -/
def c9Frame : Frame :=
  { frame_id := "f9", instance_id := some "I9", data := [3], hash := "abc123",
    created_at := 1 }

/-- Database for the C9 witness. -/
def c9Db : Db :=
  { devices := [], instances := [c9Inst], hlss_types := [c9Type],
    frames := [c9Frame], assignments := [], input_events := [] }

/-- Backend metadata reporting hash "def456" (C9 witness). -/
def c9Md : HLSSFrameMetadata :=
  { instance_id := "I9", has_frame := true, frame_id := some "hf",
    frame_hash := some "def456" }

/-- Environment for the C9 witness: metadata hash mismatch, send succeeds. -/
def c9Env : Env :=
  { frame_metadata := fun _ => .ok c9Md,
    frame_send := fun _ => .ok { status := "sending", frame_id := some "hf" } }

/-! ## List lemmas about `updateFirst` (the ORM row-mutation pattern) -/

/-- Updating the row `find?` returns keeps it the row `find?` returns,
provided the update preserves the predicate. -/
theorem find?_updateFirst {p : α → Bool} {f : α → α} {l : List α} {a : α}
    (h : l.find? p = some a) (hpf : p (f a) = true) :
    (updateFirst p f l).find? p = some (f a) := by
  induction l with
  | nil => simp [List.find?] at h
  | cons x xs ih =>
      by_cases hx : p x
      · rw [List.find?_cons_of_pos _ hx] at h
        cases h
        simp [updateFirst, hx, List.find?_cons_of_pos _ hpf]
      · rw [List.find?_cons_of_neg _ hx] at h
        simp only [updateFirst, if_neg hx]
        rw [List.find?_cons_of_neg _ hx]
        exact ih h

/-- `updateFirst` at the row `find?` returns preserves the key column when
the update does. -/
theorem map_updateFirst {p : α → Bool} {f : α → α} {key : α → β} {l : List α}
    {a : α} (h : l.find? p = some a) (hkey : key (f a) = key a) :
    (updateFirst p f l).map key = l.map key := by
  induction l with
  | nil => rfl
  | cons x xs ih =>
      by_cases hx : p x
      · rw [List.find?_cons_of_pos _ hx] at h
        cases h
        simp [updateFirst, hx, hkey]
      · rw [List.find?_cons_of_neg _ hx] at h
        simp [updateFirst, hx, ih h]

/-- In a list whose key column has no duplicates, looking a member up by
its key finds exactly that member. -/
theorem find?_key_of_nodup {key : α → String} {l : List α} {a : α}
    (hnodup : (l.map key).Nodup) (ha : a ∈ l) :
    l.find? (fun x => key x == key a) = some a := by
  induction l with
  | nil => cases ha
  | cons x xs ih =>
      rw [List.map_cons, List.nodup_cons] at hnodup
      rcases List.mem_cons.mp ha with rfl | hmem
      · exact List.find?_cons_of_pos _ (by simp)
      · have hne : key x ≠ key a := by
          intro he
          exact hnodup.1 (he ▸ List.mem_map_of_mem key hmem)
        rw [List.find?_cons_of_neg _ (by simpa using hne)]
        exact ih hnodup.2 hmem

/-- Cross-key stability: if the row `find? p` returns is also the row
`find? q` returns and the key column has no duplicates, then after
`updateFirst p f` the row `find? q` returns is the updated row. -/
theorem find?_q_updateFirst {p q : α → Bool} {f : α → α} {key : α → String}
    {l : List α} {a : α}
    (hnodup : (l.map key).Nodup)
    (hp : l.find? p = some a) (hq : l.find? q = some a)
    (hqf : q (f a) = true) :
    (updateFirst p f l).find? q = some (f a) := by
  induction l with
  | nil => simp [List.find?] at hp
  | cons x xs ih =>
      rw [List.map_cons, List.nodup_cons] at hnodup
      by_cases hx : p x
      · rw [List.find?_cons_of_pos _ hx] at hp
        cases hp
        simp [updateFirst, hx, List.find?_cons_of_pos _ hqf]
      · rw [List.find?_cons_of_neg _ hx] at hp
        by_cases hqx : q x
        · rw [List.find?_cons_of_pos _ hqx] at hq
          cases hq
          exfalso
          have hmem : a ∈ xs := List.mem_of_find?_eq_some hp
          exact hnodup.1 (List.mem_map_of_mem key hmem)
        · rw [List.find?_cons_of_neg _ hqx] at hq
          simp only [updateFirst, if_neg hx]
          rw [List.find?_cons_of_neg _ hqx]
          exact ih hnodup.2 hp hq

/-! ## Claim theorems -/

/-- C7: for every input token and expected kind, `verify_token` returns
the same uniform invalid result (`none`, carrying no distinguishing
information) in all failure cases — decode failure (malformed token, wrong
signature, or expiry rejected inside the JWT library), wrong token kind,
and expired token — and returns the decoded claims otherwise. -/
theorem C7_verify_token_uniform_invalid (d : JwtDecode) (t : String) (now : Nat) :
    (d = .err → verify_token d t now = none) ∧
    (∀ p : JwtPayload, d = .ok p →
      (p.type.getD "" ≠ t → verify_token d t now = none) ∧
      (p.exp.getD 0 < now → verify_token d t now = none) ∧
      (p.type.getD "" = t → ¬ p.exp.getD 0 < now →
        verify_token d t now =
          some { subject_id := p.sub.getD "", token_type := p.type.getD "",
                 expires_at := p.exp.getD 0, issued_at := p.iat.getD 0,
                 jti := p.jti })) := by
  refine ⟨fun h => by subst h; rfl, fun p h => ?_⟩
  subst h
  refine ⟨fun hty => ?_, fun hexp => ?_, fun hty hexp => ?_⟩
  · simp [verify_token, decode_token, hty]
  · simp only [verify_token, decode_token]
    by_cases hty : p.type.getD "" != t
    · simp [hty]
    · simp only [hty, Bool.false_eq_true, if_false, if_pos hexp]
  · simp [verify_token, decode_token, hty, hexp]

/-- C7 witness: a token of the wrong kind is rejected with the uniform
invalid result. -/
theorem C7_witness :
    verify_token (.ok { type := some "device_refresh" }) "device_access" 0 = none :=
  ((C7_verify_token_uniform_invalid (.ok { type := some "device_refresh" })
      "device_access" 0).2 _ rfl).1 (by decide)

/-- C10: the device-facing endpoints (poll/state, frame fetch, input
submission) never compare the `device_id` path parameter against the
subject of the presented access token: the handlers' results and state
transitions are identical for any two authenticated subjects, so a request
made with one device's valid token against another device's id is
processed exactly as if made by the latter. -/
theorem C10_no_per_device_ownership_check (env : Env) (db : Db)
    (device_id : String) (last_frame_id : Option String) (subj1 subj2 : String)
    (now : Nat) (frame_id : String) (event : InputEventSchema) :
    get_device_state env db device_id last_frame_id subj1 now =
      get_device_state env db device_id last_frame_id subj2 now ∧
    get_frame db device_id frame_id subj1 = get_frame db device_id frame_id subj2 ∧
    submit_input env db device_id event subj1 =
      submit_input env db device_id event subj2 :=
  ⟨rfl, rfl, rfl⟩

/-- C2 counterexample: a refresh token carrying no JTI presented for a
device whose `current_refresh_jti` is non-empty is accepted (a new access
token is minted), not rejected as revoked — the JTI comparison in
`get_device_from_refresh_token` fires only when the token carries a JTI. -/
theorem C2_counterexample :
    c2Device.current_refresh_jti = some "jtiA" ∧
    c2Device.auth_status = .authorized ∧
    refresh_access c2Db "d1" none = .success "d1" := by
  refine ⟨rfl, rfl, ?_⟩
  rfl

/-- C2 (amended): `refresh_access` returns Revoked exactly when the
presented refresh token carries a (non-empty) JTI that differs from the
Python `str()` of the device's stored `current_refresh_jti`; a token
carrying no JTI bypasses the comparison entirely; otherwise, with device
status authorized, it mints a new access token without rotating the
refresh token (the handler performs no database write, so the stored JTI
is unchanged). -/
theorem C2_refresh_jti_check_requires_token_jti (db : Db) (subject_id : String)
    (tok_jti : Option String) (device : Device)
    (hfind : db.devices.find? (fun d => d.device_id == subject_id) = some device)
    (hauth : device.auth_status = .authorized) :
    (∀ j, tok_jti = some j → j ≠ "" → pyStr device.current_refresh_jti ≠ j →
      refresh_access db subject_id tok_jti = .revoked) ∧
    (tok_jti = none →
      refresh_access db subject_id tok_jti = .success device.device_id) ∧
    (∀ j, tok_jti = some j → (j = "" ∨ pyStr device.current_refresh_jti = j) →
      refresh_access db subject_id tok_jti = .success device.device_id) := by
  refine ⟨fun j hj hne hmis => ?_, fun hj => ?_, fun j hj hok => ?_⟩
  · subst hj
    simp [refresh_access, hfind, hauth, hne, hmis]
  · subst hj
    simp [refresh_access, hfind, hauth]
  · subst hj
    rcases hok with h | h <;> simp [refresh_access, hfind, hauth, h]

/-- C2 witness: a token carrying a mismatched JTI is rejected as revoked. -/
theorem C2_witness : refresh_access c2Db "d1" (some "jtiB") = .revoked :=
  (C2_refresh_jti_check_requires_token_jti c2Db "d1" (some "jtiB") c2Device
      (by rfl) (by rfl)).1 "jtiB" rfl (by decide) (by decide)

/-- Accumulator bound for `List.findIdx?`. -/
theorem findIdx?_bounds {p : α → Bool} {l : List α} {s i : Nat}
    (h : List.findIdx? p l s = some i) : s ≤ i ∧ i < s + l.length := by
  induction l generalizing s with
  | nil => simp [List.findIdx?] at h
  | cons x xs ih =>
      rw [List.findIdx?_cons] at h
      by_cases hx : p x
      · rw [if_pos hx] at h
        cases h
        simp only [List.length_cons]
        omega
      · rw [if_neg hx] at h
        have := ih h
        simp only [List.length_cons]
        omega

/-- An index found by `findIdx?` is in range. -/
theorem findIdx?_lt_length {p : α → Bool} {l : List α} {i : Nat}
    (h : l.findIdx? p = some i) : i < l.length := by
  have := findIdx?_bounds h
  omega

/-- Python `(i + 1) % n` on ints agrees with the Nat computation. -/
theorem emod_step_right (i n : Nat) :
    (((i : Int) + 1).emod n).toNat = (i + 1) % n := by
  have h1 : ((i : Int) + 1) = ((i + 1 : Nat) : Int) := by push_cast; ring
  have h2 : ((i + 1 : Nat) : Int).emod (n : Int) = (((i + 1) % n : Nat) : Int) := by
    show ((i + 1 : Nat) : Int) % (n : Int) = (((i + 1) % n : Nat) : Int)
    exact_mod_cast rfl
  rw [h1, h2]
  exact Int.toNat_natCast _

/-- Python `(i - 1) % n` on ints (nonnegative result) agrees with the Nat
computation `(i + n - 1) % n` when `i < n`. -/
theorem emod_step_left (i n : Nat) (hi : i < n) :
    (((i : Int) - 1).emod n).toNat = (i + n - 1) % n := by
  have h1 : ((i : Int) - 1).emod n = ((i : Int) - 1 + (n : Int) * 1).emod n :=
    (Int.add_mul_emod_self_left ..).symm
  have h2 : (i : Int) - 1 + (n : Int) * 1 = ((i + n - 1 : Nat) : Int) := by
    omega
  have h3 : ((i + n - 1 : Nat) : Int).emod (n : Int) = (((i + n - 1) % n : Nat) : Int) := by
    show ((i + n - 1 : Nat) : Int) % (n : Int) = (((i + n - 1) % n : Nat) : Int)
    exact_mod_cast rfl
  rw [h1, h2, h3]
  exact Int.toNat_natCast _

/-- C5: switching rotates `active_instance_id` by +1 (HL_RIGHT) or −1
(HL_LEFT) through the ordered assigned list, wrapping modulo its length
(so for assigned `[A, B, C]` with active `C`, HL_RIGHT selects `A`), and
selects the first assigned instance when the active instance is unset or
absent from the list. -/
theorem C5_switch_rotation_wraparound (env : Env) (db : Db) (device : Device)
    (button : ButtonType) (ids : List String)
    (hids : assignedIds db device.device_id = ids) (hne : ids ≠ []) :
    (optStrTruthy device.active_instance_id = false →
      handle_screen_switch env db device button =
        { device with active_instance_id := ids.head? }) ∧
    (∀ a, device.active_instance_id = some a → a ≠ "" →
      ids.findIdx? (fun x => x == a) = none →
      handle_screen_switch env db device button =
        { device with active_instance_id := ids.head? }) ∧
    (∀ a i, device.active_instance_id = some a → a ≠ "" →
      ids.findIdx? (fun x => x == a) = some i →
      (button = .HL_RIGHT →
        (handle_screen_switch env db device button).active_instance_id =
          some (ids.getD ((i + 1) % ids.length) "")) ∧
      (button = .HL_LEFT →
        (handle_screen_switch env db device button).active_instance_id =
          some (ids.getD ((i + ids.length - 1) % ids.length) ""))) := by
  rcases ids with _ | ⟨id0, rest⟩
  · exact absurd rfl hne
  refine ⟨fun hfalsy => ?_, fun a ha hane hidx => ?_, fun a i ha hane hidx => ?_⟩
  · unfold handle_screen_switch
    rw [hids]
    simp [hfalsy]
  · unfold handle_screen_switch
    rw [hids]
    have htr : optStrTruthy device.active_instance_id = true := by
      rw [ha]
      simpa [optStrTruthy] using hane
    have hget : device.active_instance_id.getD "" = a := by rw [ha]; rfl
    simp only [htr, not_true_eq_false, if_false, hget, hidx]
    rfl
  · have hlen : i < (id0 :: rest).length := findIdx?_lt_length hidx
    have htr : optStrTruthy device.active_instance_id = true := by
      rw [ha]
      simpa [optStrTruthy] using hane
    have hget : device.active_instance_id.getD "" = a := by rw [ha]; rfl
    constructor
    · rintro rfl
      unfold handle_screen_switch
      rw [hids]
      simp only [htr, not_true_eq_false, if_false, hget, hidx]
      rw [show ((((i : Int) + 1).emod (id0 :: rest).length).toNat)
            = (i + 1) % (id0 :: rest).length from emod_step_right ..]
      split
      · simp
      · split <;> simp
    · rintro rfl
      unfold handle_screen_switch
      rw [hids]
      simp only [htr, not_true_eq_false, if_false, hget, hidx]
      rw [show ((((i : Int) + -1).emod (id0 :: rest).length).toNat)
            = (i + (id0 :: rest).length - 1) % (id0 :: rest).length from ?_]
      · split
        · simp
        · split <;> simp
      · have := emod_step_left i (id0 :: rest).length hlen
        simpa [Int.sub_eq_add_neg] using this

/-- C5 witness: assigned `[A, B, C]`, active `C`, HL_RIGHT wraps to `A`. -/
theorem C5_witness :
    (handle_screen_switch stubEnv c5Db c5Device .HL_RIGHT).active_instance_id
      = some "A" := by
  have h := (C5_switch_rotation_wraparound stubEnv c5Db c5Device .HL_RIGHT
      ["A", "B", "C"] (by rfl) (by simp)).2.2 "C" 2 rfl (by simp) (by rfl)
  simpa using h.1 rfl

/-- C4 counterexample: a device with no previous active instance switches
(HL_RIGHT) onto its single assigned instance `A`; a cached frame for `A`
exists, yet the handler returns early without the probe or the
cached-frame fallback, leaving `current_frame_id` unset — contradicting
the claim that the fallback also applies in this case. -/
theorem C4_counterexample :
    latestFrame c4Db "A" = some c4Frame ∧
    (handle_screen_switch stubEnv c4Db c4Device .HL_RIGHT).active_instance_id
      = some "A" ∧
    (handle_screen_switch stubEnv c4Db c4Device .HL_RIGHT).current_frame_id
      = none :=
  ⟨rfl, rfl, rfl⟩

/-- C4 (amended): the immediate frame-metadata probe and the cached-frame
fallback happen only on the rotation path — when the device already has a
(truthy) active instance that is still in the assigned list.  There, after
rotating to the new instance, the handler probes the backend once; if the
probe yields a frame id the device takes it, otherwise `current_frame_id`
falls back to the most recent locally cached frame for the new instance
when one exists (and is left untouched when none exists).  In the
no-active-instance and active-not-in-list cases the handler selects the
first assigned instance and returns without probing. -/
theorem C4_rotation_probe_and_cached_fallback (env : Env) (db : Db)
    (device : Device) (button : ButtonType) (ids : List String)
    (a newId : String) (i : Nat)
    (hids : assignedIds db device.device_id = ids)
    (ha : device.active_instance_id = some a) (hane : a ≠ "")
    (hidx : ids.findIdx? (fun x => x == a) = some i)
    (hnew : newId = ids.getD ((((i : Int) +
        (match button with | .HL_LEFT => -1 | _ => 1)).emod ids.length).toNat) "") :
    (∀ F, check_hlss_for_new_frame env db device.current_frame_id newId = some F →
       handle_screen_switch env db device button =
         { device with active_instance_id := some newId,
                       current_frame_id := some F }) ∧
    (check_hlss_for_new_frame env db device.current_frame_id newId = none →
      (∀ fr, latestFrame db newId = some fr →
         handle_screen_switch env db device button =
           { device with active_instance_id := some newId,
                         current_frame_id := some fr.frame_id }) ∧
      (latestFrame db newId = none →
         handle_screen_switch env db device button =
           { device with active_instance_id := some newId })) := by
  subst hnew
  rcases ids with _ | ⟨id0, rest⟩
  · simp [List.findIdx?] at hidx
  have htr : optStrTruthy device.active_instance_id = true := by
    rw [ha]
    simpa [optStrTruthy] using hane
  have hget : device.active_instance_id.getD "" = a := by rw [ha]; rfl
  refine ⟨fun F hF => ?_, fun hnone => ⟨fun fr hfr => ?_, fun hlf => ?_⟩⟩
  · unfold handle_screen_switch
    rw [hids]
    simp only [htr, not_true_eq_false, if_false, hget, hidx]
    rw [hF]
  · unfold handle_screen_switch
    rw [hids]
    simp only [htr, not_true_eq_false, if_false, hget, hidx]
    rw [hnone, hfr]
  · unfold handle_screen_switch
    rw [hids]
    simp only [htr, not_true_eq_false, if_false, hget, hidx]
    rw [hnone, hlf]

/-- C4 witness: rotating from `A` to `B` with an unreachable backend falls
back to the cached frame for `B`. -/
theorem C4_witness :
    handle_screen_switch stubEnv c4bDb c4bDevice .HL_RIGHT =
      { c4bDevice with active_instance_id := some "B",
                       current_frame_id := some "fB" } := by
  have h := (C4_rotation_probe_and_cached_fallback stubEnv c4bDb c4bDevice
      .HL_RIGHT ["A", "B"] "A" "B" 0 rfl rfl (by simp) rfl (by rfl)).2 rfl
  exact h.1 c4bFrame rfl

/-- `withFirmware` always results in the reported firmware version. -/
theorem withFirmware_eq (d : Device) (fw : String) :
    withFirmware d fw = { d with firmware_version := fw } := by
  unfold withFirmware
  by_cases h : d.firmware_version = fw
  · rw [if_neg (by simpa using h)]
    cases d
    simp_all
  · rw [if_pos h]

/-- Characterization of `authenticate_device` on the authorized path:
correct secret and status authorized yield a fresh refresh token whose
JTI overwrites `current_refresh_jti` (and the firmware version is
updated). -/
theorem authenticate_device_authorized {db : Db} {hw secret fw nd ns j : String}
    {dev : Device}
    (hfind : db.devices.find? (fun d => d.hardware_id == hw) = some dev)
    (hsec : dev.device_secret = secret)
    (hstatus : dev.auth_status = .authorized) :
    authenticate_device db hw secret fw nd ns j =
      (.success dev.device_id j refreshExpirySeconds,
       { db with devices := (updateFirst (fun x => x.hardware_id == hw)
           (fun _ => { dev with firmware_version := fw,
                                current_refresh_jti := some j })
           db.devices) }) := by
  simp only [authenticate_device, hfind]
  rw [if_neg (show ¬ dev.device_secret ≠ secret by simp [hsec])]
  rw [withFirmware_eq]
  have hst : ({ dev with firmware_version := fw } : Device).auth_status
      = AuthStatus.authorized := hstatus
  rw [hst]

/-- C1: after two consecutive successful `authenticate` calls for the same
device (status authorized, correct secret, fresh distinct JTIs), the
stored `current_refresh_jti` equals the second token's JTI, presenting the
first refresh token to `refresh_access` fails as revoked, and presenting
the second succeeds — at most one live refresh token per device. -/
theorem C1_single_live_refresh_token (db : Db)
    (hw secret fw1 fw2 nd1 ns1 nd2 ns2 j1 j2 : String) (dev : Device)
    (hnodup : (db.devices.map (fun d => d.device_id)).Nodup)
    (hfind : db.devices.find? (fun d => d.hardware_id == hw) = some dev)
    (hsec : dev.device_secret = secret)
    (hstatus : dev.auth_status = .authorized)
    (hj1 : j1 ≠ "") (hne : j1 ≠ j2) :
    (authenticate_device db hw secret fw1 nd1 ns1 j1).1
      = .success dev.device_id j1 refreshExpirySeconds ∧
    (authenticate_device (authenticate_device db hw secret fw1 nd1 ns1 j1).2
        hw secret fw2 nd2 ns2 j2).1
      = .success dev.device_id j2 refreshExpirySeconds ∧
    (∃ dev2,
      (authenticate_device (authenticate_device db hw secret fw1 nd1 ns1 j1).2
          hw secret fw2 nd2 ns2 j2).2.devices.find?
            (fun d => d.device_id == dev.device_id) = some dev2 ∧
      dev2.current_refresh_jti = some j2) ∧
    refresh_access
      (authenticate_device (authenticate_device db hw secret fw1 nd1 ns1 j1).2
        hw secret fw2 nd2 ns2 j2).2 dev.device_id (some j1) = .revoked ∧
    refresh_access
      (authenticate_device (authenticate_device db hw secret fw1 nd1 ns1 j1).2
        hw secret fw2 nd2 ns2 j2).2 dev.device_id (some j2)
      = .success dev.device_id := by
  have h1 := @authenticate_device_authorized db hw secret fw1 nd1 ns1 j1 dev
    hfind hsec hstatus
  set dev1 : Device :=
    { dev with firmware_version := fw1, current_refresh_jti := some j1 } with hdev1
  have hpf0 := List.find?_some hfind
  have hpf1 : (fun x : Device => x.hardware_id == hw) dev1 = true := by
    rw [hdev1]
    exact hpf0
  have hfind1 : (authenticate_device db hw secret fw1 nd1 ns1 j1).2.devices.find?
      (fun d => d.hardware_id == hw) = some dev1 := by
    rw [h1]
    exact find?_updateFirst hfind hpf1
  have hsec1 : dev1.device_secret = secret := by rw [hdev1]; exact hsec
  have hst1 : dev1.auth_status = .authorized := by rw [hdev1]; exact hstatus
  have h2 := @authenticate_device_authorized
    (authenticate_device db hw secret fw1 nd1 ns1 j1).2 hw secret fw2 nd2 ns2 j2
    dev1 hfind1 hsec1 hst1
  set dev2 : Device :=
    { dev1 with firmware_version := fw2, current_refresh_jti := some j2 } with hdev2
  have hmem : dev ∈ db.devices := List.mem_of_find?_eq_some hfind
  have hfindId0 : db.devices.find? (fun d => d.device_id == dev.device_id)
      = some dev := find?_key_of_nodup hnodup hmem
  have hfindId1 : (authenticate_device db hw secret fw1 nd1 ns1 j1).2.devices.find?
      (fun d => d.device_id == dev.device_id) = some dev1 := by
    rw [h1]
    exact find?_q_updateFirst hnodup hfind hfindId0 (by simp [hdev1])
  have hnodup1 : ((authenticate_device db hw secret fw1 nd1 ns1 j1).2.devices.map
      (fun d => d.device_id)).Nodup := by
    rw [h1]
    rw [map_updateFirst hfind (by simp [hdev1])]
    exact hnodup
  have hfindId2 : (authenticate_device
      (authenticate_device db hw secret fw1 nd1 ns1 j1).2
      hw secret fw2 nd2 ns2 j2).2.devices.find?
        (fun d => d.device_id == dev.device_id) = some dev2 := by
    rw [h2]
    exact find?_q_updateFirst hnodup1 hfind1
      (by simpa [hdev2, hdev1] using hfindId1) (by simp [hdev2, hdev1])
  have hst2 : dev2.auth_status = AuthStatus.authorized := by rw [hdev2]; exact hst1
  have hjti2 : dev2.current_refresh_jti = some j2 := by rw [hdev2]
  have hid2 : dev2.device_id = dev.device_id := by rw [hdev2, hdev1]
  refine ⟨by rw [h1], by rw [h2, hdev1], ⟨dev2, hfindId2, by rw [hdev2]⟩, ?_, ?_⟩
  · have hne' : j2 ≠ j1 := Ne.symm hne
    simp [refresh_access, hfindId2, hst2, hjti2, pyStr, hj1, hne', hstatus]
  · simp [refresh_access, hfindId2, hst2, hjti2, pyStr, hid2, hstatus]

/-- C1 witness: after two successful authentications, the first JTI is
revoked and the second is accepted. -/
theorem C1_witness :
    refresh_access
      (authenticate_device
        (authenticate_device c1Db "hwX" "topsecret" "1.0" "n1" "s1" "jti1").2
        "hwX" "topsecret" "1.0" "n2" "s2" "jti2").2 "dev1" (some "jti1")
      = .revoked ∧
    refresh_access
      (authenticate_device
        (authenticate_device c1Db "hwX" "topsecret" "1.0" "n1" "s1" "jti1").2
        "hwX" "topsecret" "1.0" "n2" "s2" "jti2").2 "dev1" (some "jti2")
      = .success "dev1" := by
  have h := C1_single_live_refresh_token c1Db "hwX" "topsecret" "1.0" "1.0"
      "n1" "s1" "n2" "s2" "jti1" "jti2" c1Device (by decide) (by rfl) rfl rfl
      (by decide) (by decide)
  exact ⟨h.2.2.2.1, h.2.2.2.2⟩

/-- C6: after the admin revoke operation — which sets `auth_status` to
revoked and clears `current_refresh_jti` — any refresh token for the
device is rejected by `refresh_access` (the status gate fires before the
JTI check), and `authenticate` with the correct secret returns Forbidden. -/
theorem C6_revocation (db : Db) (dev : Device) (fw nd ns nj : String)
    (hnodupHw : (db.devices.map (fun d => d.hardware_id)).Nodup)
    (hfindId : db.devices.find? (fun d => d.device_id == dev.device_id) = some dev)
    (hfindHw : db.devices.find? (fun d => d.hardware_id == dev.hardware_id) = some dev) :
    ∃ db', revoke_device db dev.device_id = some db' ∧
      (∃ devR, db'.devices.find? (fun d => d.device_id == dev.device_id) = some devR ∧
        devR.auth_status = .revoked ∧ devR.current_refresh_jti = none) ∧
      (∀ tok_jti, refresh_access db' dev.device_id tok_jti = .forbidden) ∧
      (authenticate_device db' dev.hardware_id dev.device_secret fw nd ns nj).1
        = .forbidden .revoked := by
  set devR : Device :=
    { dev with auth_status := .revoked, current_refresh_jti := none } with hdevR
  have hdb' : revoke_device db dev.device_id =
      some { db with devices := (updateFirst (fun d => d.device_id == dev.device_id)
        (fun _ => devR) db.devices) } := by
    simp only [revoke_device, hfindId]
  have hpid := List.find?_some hfindId
  have hpidR : (fun d : Device => d.device_id == dev.device_id) devR = true := by
    rw [hdevR]
    exact hpid
  have hfindR : (updateFirst (fun d => d.device_id == dev.device_id)
      (fun _ => devR) db.devices).find?
        (fun d => d.device_id == dev.device_id) = some devR :=
    find?_updateFirst hfindId hpidR
  have hstR : devR.auth_status = AuthStatus.revoked := by rw [hdevR]
  refine ⟨_, hdb', ⟨devR, hfindR, hstR, by rw [hdevR]⟩, ?_, ?_⟩
  · intro tok_jti
    simp [refresh_access, hfindR, hstR]
  · have hqw := List.find?_some hfindHw
    have hqwR : (fun d : Device => d.hardware_id == dev.hardware_id) devR = true := by
      rw [hdevR]
      exact hqw
    have hfindHwR : (updateFirst (fun d => d.device_id == dev.device_id)
        (fun _ => devR) db.devices).find?
          (fun d => d.hardware_id == dev.hardware_id) = some devR :=
      find?_q_updateFirst hnodupHw hfindId hfindHw hqwR
    have hsecR : devR.device_secret = dev.device_secret := by rw [hdevR]
    simp only [authenticate_device, hfindHwR]
    rw [if_neg (show ¬ devR.device_secret ≠ dev.device_secret by simp [hsecR])]
    rw [withFirmware_eq]

/-- C6 witness: revoking the witness device invalidates its refresh token
and forbids re-authentication with the correct secret. -/
theorem C6_witness :
    ∃ db', revoke_device c1Db "dev1" = some db' ∧
      refresh_access db' "dev1" (some "jti1") = .forbidden ∧
      (authenticate_device db' "hwX" "topsecret" "1.0" "n1" "s1" "j9").1
        = .forbidden .revoked := by
  obtain ⟨db', hdb', -, hall, hauth⟩ :=
    C6_revocation c1Db c1Device "1.0" "n1" "s1" "j9" (by decide) (by rfl) (by rfl)
  exact ⟨db', hdb', hall (some "jti1"), hauth⟩

/-- C3: submitting a frame for instance `I` sets `current_frame_id` to the
new frame on every device whose `active_instance_id` is `I`, leaves all
other devices unchanged, and the next poll of such a device with a stale
`last_known_frame_id` returns FETCH_FRAME carrying the new frame's id. -/
theorem C3_frame_push_correctness (env : Env) (db : Db) (iid : String)
    (content : List Nat) (fid fhash auth : String) (now now2 : Nat)
    (last : Option String) (dev : Device)
    (hfid : fid ≠ "")
    (hfind : db.devices.find? (fun d => d.device_id == dev.device_id) = some dev)
    (hact : dev.active_instance_id = some iid)
    (hlast : last ≠ some fid) :
    (∀ d ∈ db.devices, d.active_instance_id = some iid →
      { d with current_frame_id := some fid }
        ∈ (submit_frame db iid content fid fhash now).2.devices) ∧
    (∀ d ∈ db.devices, d.active_instance_id ≠ some iid →
      d ∈ (submit_frame db iid content fid fhash now).2.devices) ∧
    (submit_frame db iid content fid fhash now).1
      = { frame_id := fid, hash := fhash, created_at := now } ∧
    (get_device_state env (submit_frame db iid content fid fhash now).2
        dev.device_id last auth now2).1
      = { action := .FETCH_FRAME, frame_id := some fid,
          active_instance_id := some iid, poll_after_ms := 5000 } := by
  have hdb' : (submit_frame db iid content fid fhash now).2.devices
      = db.devices.map (fun d =>
          if d.active_instance_id == some iid then
            { d with current_frame_id := some fid }
          else d) := rfl
  refine ⟨fun d hd hdact => ?_, fun d hd hdact => ?_, rfl, ?_⟩
  · rw [hdb']
    have hm := List.mem_map_of_mem (fun d : Device =>
      if d.active_instance_id == some iid then
        { d with current_frame_id := some fid }
      else d) hd
    simpa [hdact] using hm
  · rw [hdb']
    have hm := List.mem_map_of_mem (fun d : Device =>
      if d.active_instance_id == some iid then
        { d with current_frame_id := some fid }
      else d) hd
    simpa [hdact] using hm
  · have hfind' : (submit_frame db iid content fid fhash now).2.devices.find?
        (fun d => d.device_id == dev.device_id)
        = some { dev with current_frame_id := some fid } := by
      rw [hdb', List.find?_map]
      have hcomp : ((fun d : Device => d.device_id == dev.device_id) ∘
          (fun d : Device =>
            if d.active_instance_id == some iid then
              { d with current_frame_id := some fid }
            else d))
          = (fun d : Device => d.device_id == dev.device_id) := by
        funext d
        by_cases hc : d.active_instance_id = some iid <;> simp [hc]
      rw [hcomp, hfind]
      simp [hact]
    simp only [get_device_state, hfind']
    have hcond : (optStrTruthy (some fid) && ((some fid : Option String) != last))
        = true := by
      simp only [optStrTruthy, Bool.and_eq_true, bne_iff_ne]
      exact ⟨by simpa using hfid, fun h => hlast h.symm⟩
    rw [if_pos hcond]
    simp [hact]

/-- C3 witness: submitting frame `f9` for `I` marks the device active on
`I`, leaves the device active on `J` unchanged, and the next poll with a
stale id fetches `f9`. -/
theorem C3_witness :
    { c3DevA with current_frame_id := some "f9" }
      ∈ (submit_frame c3Db "I" [7] "f9" "h9" 3).2.devices ∧
    c3DevB ∈ (submit_frame c3Db "I" [7] "f9" "h9" 3).2.devices ∧
    (get_device_state stubEnv (submit_frame c3Db "I" [7] "f9" "h9" 3).2
        "dA" (some "f0") "dA" 4).1
      = { action := .FETCH_FRAME, frame_id := some "f9",
          active_instance_id := some "I", poll_after_ms := 5000 } := by
  have h := C3_frame_push_correctness stubEnv c3Db "I" [7] "f9" "h9" "dA" 3 4
      (some "f0") c3DevA (by decide) (by rfl) rfl (by decide)
  exact ⟨h.1 c3DevA (by decide) rfl, h.2.1 c3DevB (by decide) (by decide), h.2.2.2⟩

/-- `check_hlss_for_new_frame` reads only the instance, HLSS-type and
frame tables, so the device-row write of a poll does not affect it. -/
theorem check_pollWrite (env : Env) (db : Db) (did : String) (d : Device)
    (c : Option String) (iid : String) :
    check_hlss_for_new_frame env (pollWrite db did d) c iid =
      check_hlss_for_new_frame env db c iid := rfl

/-- Unfolded form of `get_device_state` when the device row exists. -/
theorem get_device_state_found (env : Env) (db : Db) (did : String)
    (last : Option String) (auth : String) (n : Nat) (device0 : Device)
    (hfind : db.devices.find? (fun d => d.device_id == did) = some device0) :
    get_device_state env db did last auth n =
      (if optStrTruthy device0.current_frame_id &&
          (device0.current_frame_id != last) then
        ({ action := .FETCH_FRAME, frame_id := device0.current_frame_id,
           active_instance_id := device0.active_instance_id, poll_after_ms := 5000 },
         pollWrite db did { device0 with last_seen_at := some n })
      else if optStrTruthy device0.active_instance_id then
        (if optStrTruthy (check_hlss_for_new_frame env db device0.current_frame_id
              (device0.active_instance_id.getD "")) &&
            ((check_hlss_for_new_frame env db device0.current_frame_id
              (device0.active_instance_id.getD "")) != last) then
          ({ action := .FETCH_FRAME,
             frame_id := check_hlss_for_new_frame env db device0.current_frame_id
               (device0.active_instance_id.getD ""),
             active_instance_id := device0.active_instance_id,
             poll_after_ms := 5000 },
           pollWrite db did (applyCheck { device0 with last_seen_at := some n }
             (check_hlss_for_new_frame env db device0.current_frame_id
               (device0.active_instance_id.getD ""))))
        else
          ({ action := .NOOP, frame_id := none,
             active_instance_id := device0.active_instance_id,
             poll_after_ms := 5000 },
           pollWrite db did (applyCheck { device0 with last_seen_at := some n }
             (check_hlss_for_new_frame env db device0.current_frame_id
               (device0.active_instance_id.getD "")))))
      else
        ({ action := .NOOP, frame_id := none,
           active_instance_id := device0.active_instance_id,
           poll_after_ms := 5000 },
         pollWrite db did { device0 with last_seen_at := some n })) := by
  unfold get_device_state
  rw [hfind]
  rfl

/-- A frame id returned by `check_hlss_for_new_frame` is non-empty, and
once the device's `current_frame_id` holds it, a repeated check (same
environment) yields nothing new. -/
theorem check_some_elim {env : Env} {db : Db} {c : Option String} {iid F : String}
    (h : check_hlss_for_new_frame env db c iid = some F) :
    F ≠ "" ∧ check_hlss_for_new_frame env db (some F) iid = none := by
  unfold check_hlss_for_new_frame at h
  repeat' split at h
  any_goals exact Option.noConfusion h
  rename_i x5 inst h1 x4 tid h2 h3 x3 ht h4 h5 x2 md h6 x1 hfid h7 h8 x0 ef h9 h10
  cases h
  have hef : ef.frame_id = hfid := by
    have := List.find?_some h9
    simp only [Bool.and_eq_true, beq_iff_eq] at this
    exact this.2
  have ha : ht.is_active = true := by simpa using h5
  refine ⟨by rw [hef]; exact h8, ?_⟩
  simp [check_hlss_for_new_frame, h1, h2, h3, h4, ha, h6, h7, h8, h9]

/-- `applyCheck` with no new frame leaves the device unchanged. -/
theorem applyCheck_none (d : Device) : applyCheck d none = d := rfl

/-- `applyCheck` with a new frame writes `current_frame_id`. -/
theorem applyCheck_some (d : Device) (f : String) :
    applyCheck d (some f) = { d with current_frame_id := some f } := rfl

/-- Projection: updating `last_seen_at` preserves `current_frame_id`. -/
theorem update_seen_current (d : Device) (n : Option Nat) :
    ({ d with last_seen_at := n } : Device).current_frame_id
      = d.current_frame_id := rfl

/-- Projection: updating `last_seen_at` preserves `active_instance_id`. -/
theorem update_seen_active (d : Device) (n : Option Nat) :
    ({ d with last_seen_at := n } : Device).active_instance_id
      = d.active_instance_id := rfl

/-- Projection: updating `last_seen_at` preserves `device_id`. -/
theorem update_seen_id (d : Device) (n : Option Nat) :
    ({ d with last_seen_at := n } : Device).device_id = d.device_id := rfl

/-- Projection: updating `current_frame_id` writes it. -/
theorem update_current_current (d : Device) (c : Option String) :
    ({ d with current_frame_id := c } : Device).current_frame_id = c := rfl

/-- Projection: updating `current_frame_id` preserves `active_instance_id`. -/
theorem update_current_active (d : Device) (c : Option String) :
    ({ d with current_frame_id := c } : Device).active_instance_id
      = d.active_instance_id := rfl

/-- Projection: updating `current_frame_id` preserves `device_id`. -/
theorem update_current_id (d : Device) (c : Option String) :
    ({ d with current_frame_id := c } : Device).device_id = d.device_id := rfl

/-- C8 counterexample: polling twice with the same stale
`last_known_frame_id` (no intervening submission, unchanged backend state)
returns FETCH_FRAME both times, not NOOP — the claim's "returns NOOP both
times" fails whenever `current_frame_id` differs from the presented id,
and a duplicate FETCH_FRAME is produced. -/
theorem C8_counterexample :
    (get_device_state stubEnv c8Db "d8" (some "f0") "d8" 1).1.action
      = .FETCH_FRAME ∧
    (get_device_state stubEnv
        (get_device_state stubEnv c8Db "d8" (some "f0") "d8" 1).2
        "d8" (some "f0") "d8" 2).1.action = .FETCH_FRAME :=
  ⟨rfl, rfl⟩

/-- C8 (amended): poll is idempotent — calling `poll` twice with the same
`last_known_frame_id`, no intervening frame submission and the same
backend outcomes returns the same response both times (in particular, if
the first poll returns NOOP so does the second, and a repeated
FETCH_FRAME repeats the same frame id rather than NOOP). -/
theorem C8_poll_reentrant (env : Env) (db : Db) (did auth1 auth2 : String)
    (last : Option String) (n1 n2 : Nat) :
    (get_device_state env (get_device_state env db did last auth1 n1).2
        did last auth2 n2).1
      = (get_device_state env db did last auth1 n1).1 := by
  cases hfind : db.devices.find? (fun d => d.device_id == did) with
  | none =>
      have h1 : get_device_state env db did last auth1 n1 =
          ({ action := .NOOP, frame_id := none, active_instance_id := none,
             poll_after_ms := 5000 }, db) := by
        unfold get_device_state
        rw [hfind]
      have h2 : get_device_state env db did last auth2 n2 =
          ({ action := .NOOP, frame_id := none, active_instance_id := none,
             poll_after_ms := 5000 }, db) := by
        unfold get_device_state
        rw [hfind]
      rw [h1, h2]
  | some device0 =>
      have hpid := List.find?_some hfind
      rw [get_device_state_found env db did last auth1 n1 device0 hfind]
      by_cases hc1 : (optStrTruthy device0.current_frame_id &&
          (device0.current_frame_id != last)) = true
      · rw [if_pos hc1]
        have hfind1 : (pollWrite db did
              { device0 with last_seen_at := some n1 }).devices.find?
            (fun d => d.device_id == did)
            = some { device0 with last_seen_at := some n1 } :=
          find?_updateFirst hfind (by simpa [update_seen_id] using hpid)
        rw [get_device_state_found env _ did last auth2 n2 _ hfind1]
        rw [if_pos (show (optStrTruthy ({ device0 with last_seen_at := some n1 }
            : Device).current_frame_id &&
            (({ device0 with last_seen_at := some n1 }
            : Device).current_frame_id != last)) = true from hc1)]
      · rw [if_neg hc1]
        by_cases hc2 : optStrTruthy device0.active_instance_id = true
        · rw [if_pos hc2]
          cases hr : check_hlss_for_new_frame env db device0.current_frame_id
              (device0.active_instance_id.getD "") with
          | none =>
              rw [if_neg (by simp [optStrTruthy])]
              have hfind1 : (pollWrite db did (applyCheck
                    { device0 with last_seen_at := some n1 } none)).devices.find?
                  (fun d => d.device_id == did)
                  = some (applyCheck { device0 with last_seen_at := some n1 } none) :=
                find?_updateFirst hfind (by simpa [applyCheck_none, update_seen_id]
                  using hpid)
              rw [get_device_state_found env _ did last auth2 n2 _ hfind1]
              rw [if_neg (show ¬ (optStrTruthy (applyCheck
                  { device0 with last_seen_at := some n1 } none).current_frame_id &&
                  ((applyCheck { device0 with last_seen_at := some n1 }
                    none).current_frame_id != last)) = true from hc1)]
              rw [if_pos (show optStrTruthy (applyCheck
                  { device0 with last_seen_at := some n1 }
                    none).active_instance_id = true from hc2)]
              rw [show check_hlss_for_new_frame env
                  (pollWrite db did (applyCheck { device0 with last_seen_at := some n1 } none))
                  (applyCheck { device0 with last_seen_at := some n1 } none).current_frame_id
                  ((applyCheck { device0 with last_seen_at := some n1 }
                    none).active_instance_id.getD "")
                  = check_hlss_for_new_frame env db device0.current_frame_id
                      (device0.active_instance_id.getD "") from rfl]
              rw [hr]
              rw [if_neg (by simp [optStrTruthy])]
              rfl
          | some F =>
              obtain ⟨hF0, hFnone⟩ := check_some_elim hr
              have hopt : optStrTruthy (some F) = true := by
                simp [optStrTruthy, hF0]
              have hfind1 : (pollWrite db did (applyCheck
                    { device0 with last_seen_at := some n1 } (some F))).devices.find?
                  (fun d => d.device_id == did)
                  = some (applyCheck { device0 with last_seen_at := some n1 } (some F)) :=
                find?_updateFirst hfind (by simpa [applyCheck_some, update_current_id,
                  update_seen_id] using hpid)
              by_cases hc3 : ((some F : Option String) != last) = true
              · rw [if_pos (by rw [hopt, hc3]; rfl)]
                rw [get_device_state_found env _ did last auth2 n2 _ hfind1]
                rw [if_pos (show (optStrTruthy (applyCheck
                    { device0 with last_seen_at := some n1 }
                      (some F)).current_frame_id &&
                    ((applyCheck { device0 with last_seen_at := some n1 }
                      (some F)).current_frame_id != last)) = true by
                  rw [applyCheck_some, update_current_current, hopt, hc3]; rfl)]
                simp [applyCheck_some, update_current_current, update_current_active,
                  update_seen_active]
              · rw [if_neg (by
                  intro hcontra
                  rw [hopt] at hcontra
                  exact hc3 (by simpa using hcontra))]
                rw [get_device_state_found env _ did last auth2 n2 _ hfind1]
                rw [if_neg (show ¬ (optStrTruthy (applyCheck
                    { device0 with last_seen_at := some n1 }
                      (some F)).current_frame_id &&
                    ((applyCheck { device0 with last_seen_at := some n1 }
                      (some F)).current_frame_id != last)) = true by
                  rw [applyCheck_some, update_current_current]
                  intro hcontra
                  rw [hopt] at hcontra
                  exact hc3 (by simpa using hcontra))]
                rw [if_pos (show optStrTruthy (applyCheck
                    { device0 with last_seen_at := some n1 }
                      (some F)).active_instance_id = true from hc2)]
                rw [show check_hlss_for_new_frame env
                    (pollWrite db did (applyCheck { device0 with last_seen_at := some n1 } (some F)))
                    (applyCheck { device0 with last_seen_at := some n1 }
                      (some F)).current_frame_id
                    ((applyCheck { device0 with last_seen_at := some n1 }
                      (some F)).active_instance_id.getD "")
                    = check_hlss_for_new_frame env db (some F)
                        (device0.active_instance_id.getD "") from rfl]
                rw [hFnone]
                rw [if_neg (by simp [optStrTruthy])]
                simp [applyCheck_some, update_current_active, update_seen_active]
        · rw [if_neg hc2]
          have hfind1 : (pollWrite db did
                { device0 with last_seen_at := some n1 }).devices.find?
              (fun d => d.device_id == did)
              = some { device0 with last_seen_at := some n1 } :=
            find?_updateFirst hfind (by simpa [update_seen_id] using hpid)
          rw [get_device_state_found env _ did last auth2 n2 _ hfind1]
          rw [if_neg (show ¬ (optStrTruthy ({ device0 with last_seen_at := some n1 }
              : Device).current_frame_id &&
              (({ device0 with last_seen_at := some n1 }
              : Device).current_frame_id != last)) = true from hc1)]
          rw [if_neg (show ¬ optStrTruthy ({ device0 with last_seen_at := some n1 }
              : Device).active_instance_id = true from hc2)]

/-- C9: with the instance configured and the backend metadata call
succeeding, the frame-status check reports `in_sync = true` exactly when
either neither side has a frame, or both have one and the backend's
reported `frame_hash` equals the hash of the locally stored latest frame;
and whenever the sides are out of sync, forced sync issues
`request_frame_send` and, on success, reports an `action_taken` string
naming the backend's response status. -/
theorem C9_frame_sync (env : Env) (db : Db) (iid tid : String)
    (inst : Instance) (ht : HLSSType) (md : HLSSFrameMetadata)
    (hinst : db.instances.find? (fun i => i.instance_id == iid) = some inst)
    (htid : inst.hlss_type_id = some tid) (htne : tid ≠ "")
    (hht : db.hlss_types.find? (fun t => t.type_id == tid) = some ht)
    (hmd : env.frame_metadata iid = .ok md) :
    (∃ r, get_instance_frame_status env db iid = some r ∧
      (r.in_sync = true ↔
        ((md.has_frame = false ∧ latestFrame db iid = none) ∨
         (md.has_frame = true ∧
           ∃ fr, latestFrame db iid = some fr ∧ md.frame_hash = some fr.hash)))) ∧
    (∀ resp, env.frame_send iid = .ok resp →
      ¬ ((md.has_frame = false ∧ latestFrame db iid = none) ∨
         (md.has_frame = true ∧
           ∃ fr, latestFrame db iid = some fr ∧ md.frame_hash = some fr.hash)) →
      ∃ r', sync_instance_frame env db iid = some r' ∧
        r'.in_sync = false ∧
        r'.action_taken = some (syncActionString resp) ∧
        ∃ rest, syncActionString resp
          = "Requested frame from HLSS: status=" ++ resp.status ++ rest) := by
  constructor
  · have heq : get_instance_frame_status env db iid = some
        { instance_id := iid, instance_name := inst.name,
          hlss_has_frame := md.has_frame, hlss_frame_hash := md.frame_hash,
          llss_has_frame := (latestFrame db iid).isSome,
          llss_frame_hash := (latestFrame db iid).map (fun f => f.hash),
          in_sync := ((!md.has_frame && !(latestFrame db iid).isSome) ||
            (md.has_frame && (latestFrame db iid).isSome &&
              (md.frame_hash == (latestFrame db iid).map (fun f => f.hash)))),
          action_taken := none, error := none } := by
      simp only [get_instance_frame_status, hinst, htid, hht, hmd]
      rw [if_neg htne]
    refine ⟨_, heq, ?_⟩
    cases hmf : md.has_frame <;> cases hlf : latestFrame db iid <;>
      simp [hmf, hlf]
  · intro resp hsend hncond
    simp only [sync_instance_frame, hinst, htid, hht, hmd]
    rw [if_neg htne]
    have hA : (!md.has_frame && !(latestFrame db iid).isSome) = false := by
      cases hmf : md.has_frame <;> cases hlf : latestFrame db iid <;>
        simp_all
    have hB : (md.has_frame && (latestFrame db iid).isSome &&
        (md.frame_hash == (latestFrame db iid).map (fun f => f.hash))) = false := by
      cases hmf : md.has_frame <;> cases hlf : latestFrame db iid <;>
        simp_all
    rw [hA, hB]
    simp only [Bool.false_eq_true, if_false]
    rw [hsend]
    exact ⟨_, rfl, rfl, rfl, _, rfl⟩

/-- C9 witness: local hash "abc123" vs backend hash "def456" is out of
sync; forced sync reports the backend's response status. -/
theorem C9_witness :
    ∃ r', sync_instance_frame c9Env c9Db "I9" = some r' ∧
      r'.in_sync = false ∧
      r'.action_taken
        = some (syncActionString { status := "sending", frame_id := some "hf" }) := by
  have h := (C9_frame_sync c9Env c9Db "I9" "t9" c9Inst c9Type c9Md rfl rfl
      (by decide) rfl rfl).2 { status := "sending", frame_id := some "hf" } rfl
    (by
      rintro (⟨hfalse, -⟩ | ⟨-, fr, hfr, hhash⟩)
      · exact absurd hfalse (by decide)
      · rw [show latestFrame c9Db "I9" = some c9Frame from rfl] at hfr
        cases hfr
        exact absurd hhash (by decide))
  obtain ⟨r', h1, h2, h3, -⟩ := h
  exact ⟨r', h1, h2, h3⟩

end EinkLLSS
